import Mathlib

/-!
Shallow embedding of the PDF web-scraper pipeline
(`src/main.py` and `src/core.py`) and proofs about the claims of its
specification.  Bytes are modelled as `List Nat` of byte values, machine
time as `ℚ`, and the external collaborators (HTTP transport, the regex
engine applied to the two fixed license patterns, the PyPDF2 text
extractor, the SHA-256 primitive) as function parameters.
-/

namespace Scraper

/-! ## Generic string/byte helpers (Python `in`, `startswith`, `endswith`) -/

/-- Python `l.startswith(p)` on lists: `p` is an initial segment of `l`. -/
def leads {α : Type} [DecidableEq α] (p l : List α) : Bool :=
  decide (l.take p.length = p)

/-- Python `n in l` on lists: `n` occurs contiguously inside `l`. -/
def occurs {α : Type} [DecidableEq α] (n : List α) : List α → Bool
  | [] => n.isEmpty
  | a :: l => leads n (a :: l) || occurs n l

/-- Python `needle in hay` on strings (substring containment). -/
def strContains (hay needle : String) : Bool :=
  occurs needle.data hay.data

/-- Python `s.endswith(t)` on strings. -/
def str_ends (s t : String) : Bool :=
  leads t.data.reverse s.data.reverse

/-- Python `s.lower()` (ASCII model). -/
def lower (s : String) : String := String.mk (s.data.map Char.toLower)

/-- Python `s.strip()`: discard leading and trailing whitespace. -/
def strip (s : String) : String :=
  String.mk (((s.data.dropWhile Char.isWhitespace).reverse.dropWhile Char.isWhitespace).reverse)

/-! ## URL model

A URL is kept together with the components `urllib.parse.urlparse`
extracts from it; the parser itself is an external collaborator. -/

structure Url where
  raw : String
  scheme : String
  netloc : String
  path : String
deriving DecidableEq

/-- Model of `domain_of` from `main.py`: the lowercased netloc. -/
def domain_of (u : Url) : String := lower u.netloc

/-! ## Configuration constants of `main.py` -/

def REQUESTS_PER_MIN : ℚ := 10

def SECONDS_PER_REQUEST : ℚ := max 6 (60 / max 1 REQUESTS_PER_MIN)

def PER_DOMAIN_DELAY : ℚ := 10

def LIKELY_PUBLIC_TLDS : List String := [".gov", ".mil", ".eu", ".int"]

def MAX_STREAM_BYTES : Nat := 40 * 1024 * 1024

def OUT_DIR : String := "public_pdfs"

/-- Model of `tld_is_likely_public` from `main.py`. -/
def tld_is_likely_public (netloc : String) : Bool :=
  LIKELY_PUBLIC_TLDS.any (fun t => str_ends netloc t)

/-! ## PDF classifier of `core.py` (`PDFDownloader._download_pdf`) -/

/-- Byte values of the PDF magic signature `b"%PDF"`. -/
def pdfMagic : List Nat := [37, 80, 68, 70]

/-- Byte values of the token `b"PDF"`. -/
def pdfTok : List Nat := [80, 68, 70]

/-- The `is_pdf` verification in `PDFDownloader._download_pdf`
(`core.py`): content-type contains `application/pdf`, or the URL ends in
`.pdf` (case-insensitively), or the payload starts with the `%PDF` magic
bytes, or the token `PDF` occurs in the first 100 bytes. -/
def is_pdf_response (content_type_raw url : String) (content : List Nat) : Bool :=
  let content_type := lower content_type_raw
  strContains content_type "application/pdf" ||
  str_ends (lower url) ".pdf" ||
  leads pdfMagic content ||
  occurs pdfTok (content.take 100)

/-! ## Storage naming (`main.py` `sanitize_filename`, `save_pdf`) -/

/-- A character matched by `\w`, `-` or `.` in `re.sub(r"[^\w\-.]+", "_", name)`. -/
def word_char (c : Char) : Bool :=
  c.isAlphanum || c == '_' || c == '-' || c == '.'

/-- Replace every maximal run of non-word characters by a single `_`
(the effect of `re.sub(r"[^\w\-.]+", "_", name)`). -/
def collapse_go (inRun : Bool) : List Char → List Char
  | [] => []
  | c :: cs =>
    if word_char c then c :: collapse_go false cs
    else if inRun then collapse_go true cs
    else '_' :: collapse_go true cs

def collapse_nonword (l : List Char) : List Char := collapse_go false l

/-- Model of `sanitize_filename` from `main.py`: collapse non-word runs to `_`,
then keep the first 150 characters. -/
def sanitize_filename (name : String) : String :=
  (String.mk (collapse_nonword name.data)).take 150

/-- Split a character list at `/` separators. -/
def split_slash : List Char → List (List Char)
  | [] => [[]]
  | c :: cs =>
    if c == '/' then [] :: split_slash cs
    else
      match split_slash cs with
      | [] => [[c]]
      | p :: ps => (c :: p) :: ps

/-- Model of `pathlib.Path(p).name` for a POSIX path string: the last path
component, after dropping empty and `.` components. -/
def path_name (p : String) : String :=
  ((((split_slash p.data).map String.mk).filter (fun s => s != "" && s != ".")).getLastD "")

/-- Model of `save_pdf` from `main.py`, with the SHA-256 hex digest primitive
passed in as `sha`.  Returns the path the content is written to. -/
def save_pdf (sha : List Nat → String) (u : Url) (content : List Nat) : String :=
  let hash_pre := (sha content).take 12
  let base := path_name u.path
  let slug := sanitize_filename (if base = "" then "document.pdf" else base)
  OUT_DIR ++ "/" ++ (hash_pre ++ "__" ++ slug)

/-! ## Robots handling (`main.py` `RobotsCache`)

A parsed `robots.txt` ruleset (`urllib.robotparser.RobotFileParser`
specialised to the configured user agent) is modelled as its decision
function on URL strings.  The network is an oracle indexed by the number
of `robots.txt` fetch attempts made so far; `Except.error` models
`rp.read()` raising. -/

abbrev RobotRules := String → Bool

structure RCState where
  cache : List (String × RobotRules)
  fetches : Nat

def rc_init : RCState := ⟨[], 0⟩

/-- Origin key `f"{parsed.scheme}://{parsed.netloc}"` used by `RobotsCache`. -/
def origin_of (u : Url) : String := u.scheme ++ "://" ++ u.netloc

/-- Model of `RobotsCache.can_fetch` from `main.py`: on a cache miss fetch and
parse the origin's rules; on a fetch failure log and return `false`
without caching anything; otherwise cache the rules and evaluate them. -/
def rc_can_fetch (net : Nat → String → Except Unit RobotRules)
    (st : RCState) (u : Url) : Bool × RCState :=
  match st.cache.find? (fun p => p.1 == origin_of u) with
  | some p => (p.2 u.raw, st)
  | none =>
    match net st.fetches (origin_of u) with
    | Except.error _ => (false, { st with fetches := st.fetches + 1 })
    | Except.ok rp =>
      (rp u.raw, { cache := (origin_of u, rp) :: st.cache, fetches := st.fetches + 1 })

/-- A sequence of `can_fetch` calls, returning the answers in order. -/
def rc_run (net : Nat → String → Except Unit RobotRules) :
    RCState → List Url → List Bool × RCState
  | st, [] => ([], st)
  | st, u :: us =>
    let r := rc_can_fetch net st u
    let rest := rc_run net r.2 us
    (r.1 :: rest.1, rest.2)

/-! ## Rate limiting (`main.py` `RateLimiter`, `PerDomainLimiter`, `safe_get`)

Idealised timing semantics: `time.time()` reads a virtual clock `now`,
`time.sleep(d)` advances it by exactly `d`, and all other work takes no
time.  Arbitrary nonnegative idle time may pass between fetches. -/

structure TState where
  now : ℚ
  lastGlobal : ℚ
  lastHit : List (String × ℚ)

/-- The `defaultdict(lambda: 0.0)` lookup used by `PerDomainLimiter`. -/
def lookup0 (d : String) (m : List (String × ℚ)) : ℚ :=
  ((m.find? (fun p => p.1 == d)).map (fun p => p.2)).getD 0

/-- Model of `RateLimiter.wait` with minimum interval `si`: sleep out the
remaining delta if the elapsed time is below `si`, then record the new
current time as the last-acquisition time. -/
def global_wait (si : ℚ) (st : TState) : TState :=
  let delta := st.now - st.lastGlobal
  let now2 := if delta < si then st.now + (si - delta) else st.now
  { st with now := now2, lastGlobal := now2 }

/-- Model of `PerDomainLimiter.wait` with delay `dly` for domain `d`. -/
def domain_wait (dly : ℚ) (st : TState) (d : String) : TState :=
  let lh := lookup0 d st.lastHit
  let delta := st.now - lh
  let now2 := if delta < dly then st.now + (dly - delta) else st.now
  { st with now := now2, lastHit := (d, now2) :: st.lastHit }

/-- The timing part of `safe_get`: per-domain wait, then global wait,
then the HTTP request is issued at the resulting instant. -/
def safe_get_time (si dly : ℚ) (st : TState) (d : String) : TState × ℚ :=
  let st1 := domain_wait dly st d
  let st2 := global_wait si st1
  (st2, st2.now)

/-- Run a batch of fetches.  Each event `(idle, d)` lets `idle` time
pass, then issues a fetch to domain `d` through both limiters.  The
trace records, per fetch: the domain, the instant recorded by the
per-domain limiter, and the instant the request is issued. -/
def run_fetches (si dly : ℚ) : TState → List (ℚ × String) → List (String × ℚ × ℚ) × TState
  | st, [] => ([], st)
  | st, (idle, d) :: evs =>
    let st0 := { st with now := st.now + idle }
    let st1 := domain_wait dly st0 d
    let st2 := global_wait si st1
    let rest := run_fetches si dly st2 evs
    ((d, st1.now, st2.now) :: rest.1, rest.2)

/-! ## HTTP responses and the license heuristic (`main.py`) -/

structure Response where
  status_code : Nat
  headers : List (String × String)
deriving DecidableEq

/-- Header lookup as `requests` does it, with default `""` (case-insensitive keys). -/
def get_header (hs : List (String × String)) (name : String) : String :=
  match hs.find? (fun p => lower p.1 == lower name) with
  | some p => p.2
  | none => ""

/-- Model of `headers_forbid_use` from `main.py`: concatenate the `X-Robots-Tag`
header lookups (case-insensitive, so both lookups agree), lowercase, and
look for any restriction directive as a substring. -/
def headers_forbid_use (resp : Response) : Bool :=
  let xr := get_header resp.headers "X-Robots-Tag" ++ "," ++ get_header resp.headers "x-robots-tag"
  let tags := lower xr
  ["noindex", "noarchive", "noai", "nofollow", "none"].any (fun tag => strContains tags tag)

/-- Model of `is_public_enough` from `main.py`.  `extract` stands for
`pdf_text_preview` (the PyPDF2 collaborator, which may raise); `pm` and
`rm` stand for `re.search` of `PERMISSIVE_LICENSE_PATTERNS` and
`RESTRICTIVE_PATTERNS`.  Returns `Except.error` when text extraction
raises. -/
def is_public_enough (extract : List Nat → Except String String)
    (pm rm : String → Bool) (_u : Url) (resp : Response)
    (pdf_bytes : List Nat) (netloc : String) : Except String (Bool × String) :=
  if headers_forbid_use resp then
    Except.ok (false, "Rejected: X-Robots-Tag forbids indexing/AI")
  else
    match extract pdf_bytes with
    | Except.error e => Except.error e
    | Except.ok preview =>
      if pm preview then
        Except.ok (true, "Accepted: permissive license detected in text")
      else if tld_is_likely_public netloc then
        if rm preview then
          Except.ok (false, "Rejected: restrictive language on likely-public domain")
        else
          Except.ok (true, "Accepted: likely public TLD and no restrictive language found")
      else if rm preview then
        Except.ok (false, "Rejected: restrictive licensing language found")
      else
        Except.ok (false, "Rejected: no permissive license signal (conservative default)")

/-! ## Discovery (`main.py` `discover_via_bing`) -/

/-- Model of `discover_via_bing` from `main.py`.  `bing_api_key` is the value of
the `BING_API_KEY` environment variable (`""` when unset); `api` is the
outcome of the Bing Web Search request, as the list of result-page URLs,
with `Except.error` modelling a request/JSON failure. -/
def discover_via_bing (bing_api_key : String)
    (api : Except String (List String)) : List String :=
  if strip bing_api_key = "" then []
  else
    match api with
    | Except.error _ => []
    | Except.ok pages => pages.filter (fun u => str_ends (lower u) ".pdf")

/-! ## Manifest rows and the per-URL pipeline (`main.py` `main`) -/

/-- One manifest row (`record_manifest` field schema, sans timestamp,
which is an external clock read). -/
structure Row where
  source_url : String
  status : String
  reason : String
  http_status : String
  content_type : String
  saved_path : String
  sha256 : String
deriving DecidableEq

def mk_skip (u : Url) (reason hs ct : String) : Row :=
  ⟨u.raw, "skipped", reason, hs, ct, "", ""⟩

def mk_rejected (u : Url) (reason hs ct sha : String) : Row :=
  ⟨u.raw, "rejected", reason, hs, ct, "", sha⟩

def mk_saved (u : Url) (reason hs ct saved sha : String) : Row :=
  ⟨u.raw, "saved", reason, hs, ct, saved, sha⟩

/-- The `except` handler row at the per-URL boundary. -/
def error_row (u : Url) (e : String) : Row :=
  ⟨u.raw, "error", e, "", "", "", ""⟩

/-- The environment one URL meets: the outcome of the HEAD-style
`safe_get`, of the streaming `safe_get`, the chunks `iter_content`
yields (`Except.error` models a transport exception while iterating),
and the `pdf_text_preview` outcome for the streamed content. -/
structure UrlEnv where
  head : Option Response
  get : Option Response
  chunks : Except String (List (List Nat))
  extract : Except String String

/-- The `iter_content` accumulation loop of `main`: skip empty chunks,
append the rest, and raise `file_too_large` as soon as the accumulated
content exceeds `MAX_STREAM_BYTES`. -/
def stream_content (acc : List Nat) : List (List Nat) → Except String (List Nat)
  | [] => Except.ok acc
  | c :: cs =>
    if c.isEmpty then stream_content acc cs
    else
      let acc2 := acc ++ c
      if MAX_STREAM_BYTES < acc2.length then Except.error "file_too_large"
      else stream_content acc2 cs

def read_stream (chunks : Except String (List (List Nat))) : Except String (List Nat) :=
  match chunks with
  | Except.error e => Except.error e
  | Except.ok cs => stream_content [] cs

/-- The body of the per-URL `try` block in `main` (`main.py` lines
337–446).  Returns the manifest row recorded for the URL together with
the list of file paths written; `Except.error` models an exception
escaping to the per-URL boundary. -/
def process_url (sha : List Nat → String) (pm rm : String → Bool)
    (env : UrlEnv) (u : Url) : Except String (Row × List String) :=
  match env.head with
  | none => Except.ok (mk_skip u "robots_disallow_or_request_failed" "" "", [])
  | some head_resp =>
    let status := head_resp.status_code
    let ctype := lower (get_header head_resp.headers "Content-Type")
    if !(200 ≤ status && status < 400) then
      Except.ok (mk_skip u ("http_" ++ toString status) (toString status) ctype, [])
    else if !strContains ctype "pdf" && !str_ends (lower u.raw) ".pdf" then
      Except.ok (mk_skip u "not_pdf" (toString status) ctype, [])
    else if headers_forbid_use head_resp then
      Except.ok (mk_skip u "x-robots-tag_forbids" (toString status) ctype, [])
    else
      match env.get with
      | none => Except.ok (mk_skip u "get_failed" "" "", [])
      | some g =>
        let gct := get_header g.headers "Content-Type"
        if !(200 ≤ g.status_code && g.status_code < 300) then
          Except.ok (mk_skip u "get_failed" (toString g.status_code) gct, [])
        else if !strContains (lower gct) "application/pdf" && !str_ends (lower u.raw) ".pdf" then
          Except.ok (mk_skip u "not_pdf_after_get" (toString g.status_code) gct, [])
        else
          match read_stream env.chunks with
          | Except.error e =>
            Except.ok (mk_skip u ("stream_error:" ++ e) (toString g.status_code) gct, [])
          | Except.ok content =>
            let netloc := domain_of u
            match is_public_enough (fun _ => env.extract) pm rm u g content netloc with
            | Except.error e => Except.error e
            | Except.ok ar =>
              if !ar.1 then
                Except.ok (mk_rejected u ar.2 (toString g.status_code) gct (sha content), [])
              else
                let saved := save_pdf sha u content
                Except.ok (mk_saved u ar.2 (toString g.status_code) gct saved (sha content), [saved])

/-- Extract the message of an exception outcome (`""` on success). -/
def exc_msg {α : Type} : Except String α → String
  | Except.error e => e
  | Except.ok _ => ""

/-- The per-URL loop of `main`: the `try` body, with its `except` clause
recording an `error` row, run over every discovered URL. -/
def run_urls (sha : List Nat → String) (pm rm : String → Bool)
    (env : Url → UrlEnv) (urls : List Url) : List (Row × List String) :=
  urls.map (fun u =>
    match process_url sha pm rm (env u) u with
    | Except.ok rw => rw
    | Except.error e => (error_row u e, []))

/-! ## Domain allowlist filter (`main.py` `main`, lines 328–335) -/

/-- Python `x.lstrip(".")`: drop every leading dot. -/
def lstrip_dots (s : String) : String :=
  String.mk (s.data.dropWhile (fun c => c == '.'))

/-- The allowlist membership test applied to one candidate's lowercased
netloc: keep the URL when the netloc string-ends with an entry or equals
an entry with leading dots stripped. -/
def domain_allowed (allowed : List String) (net : String) : Bool :=
  allowed.any (fun x => str_ends net x || net == lstrip_dots x)

/-- The candidate filter of `main`: applied only when an allowlist is
configured. -/
def filter_allowed (allowed : List String) (urls : List Url) : List Url :=
  if allowed.isEmpty then urls
  else urls.filter (fun u => domain_allowed allowed (domain_of u))

def extract_pd : List Nat → Except String String :=
  fun _ => Except.ok "This work is in the public domain."

def pm_pd : String → Bool := fun s => strContains (lower s) "public domain"

def rm_arr : String → Bool := fun s => strContains (lower s) "all rights reserved"

def u_com : Url := ⟨"http://x.com/a.pdf", "http", "x.com", "/a.pdf"⟩

def resp_noai : Response := ⟨200, [("X-Robots-Tag", "noai"), ("Content-Type", "application/pdf")]⟩

/-! ## Claim C1 — robots fetch failure is fail-closed but not cached -/

/-- The network oracle that fails on the first `robots.txt` fetch and
serves allow-all rules afterwards. -/
def net_flip : Nat → String → Except Unit RobotRules :=
  fun n _ => if n = 0 then Except.error () else Except.ok (fun _ => true)

/-- The network oracle for which every `robots.txt` fetch fails. -/
def net_down : Nat → String → Except Unit RobotRules :=
  fun _ _ => Except.error ()

def u_gov : Url := ⟨"http://x.gov/a.pdf", "http", "x.gov", "/a.pdf"⟩

def u_gov2 : Url := ⟨"http://x.gov/b.pdf", "http", "x.gov", "/b.pdf"⟩

/-! ## Claim C4 — rate limiting -/

/-- Each element of the list is at least `g` later than its
predecessor, and the first at least `g` later than `t0`. -/
def spaced (g : ℚ) : ℚ → List ℚ → Prop
  | _, [] => True
  | t0, t :: ts => t0 + g ≤ t ∧ spaced g t ts

def ce_events : List (ℚ × String) := [(0, "d1"), (0, "d2"), (0, "d2")]

def ce_start : TState := ⟨1000, 0, []⟩

def sha_len : List Nat → String := fun c => toString c.length

/-- An environment whose text extraction raises, so that the per-URL
body throws from inside the license check. -/
def env_boom : Url → UrlEnv := fun _ =>
  ⟨some ⟨200, [("Content-Type", "application/pdf")]⟩,
   some ⟨200, [("Content-Type", "application/pdf")]⟩,
   Except.ok [[1]], Except.error "boom"⟩

def resp_pdf : Response := ⟨200, [("Content-Type", "application/pdf")]⟩

def big_chunks : List (List Nat) := [List.replicate (MAX_STREAM_BYTES + 1) 0]

def env_big : UrlEnv := ⟨some resp_pdf, some resp_pdf, Except.ok big_chunks, Except.ok "x"⟩

theorem leads_iff {α : Type} [DecidableEq α] (p l : List α) :
    leads p l = true ↔ ∃ t, l = p ++ t := by
  unfold leads
  rw [decide_eq_true_iff]
  constructor
  · intro h
    exact ⟨l.drop p.length, by conv_lhs => rw [← List.take_append_drop p.length l, h]⟩
  · rintro ⟨t, rfl⟩
    exact List.take_left p t

theorem occurs_iff {α : Type} [DecidableEq α] (n l : List α) :
    occurs n l = true ↔ ∃ s t, l = s ++ n ++ t := by
  induction l with
  | nil =>
    simp only [occurs, List.isEmpty_iff]
    constructor
    · rintro rfl; exact ⟨[], [], rfl⟩
    · rintro ⟨s, t, h⟩
      rcases List.append_eq_nil.mp h.symm with ⟨h1, h2⟩
      exact (List.append_eq_nil.mp h1).2
  | cons a l ih =>
    simp only [occurs, Bool.or_eq_true, ih, leads_iff]
    constructor
    · rintro (⟨t, h⟩ | ⟨s, t, h⟩)
      · exact ⟨[], t, by simpa using h⟩
      · exact ⟨a :: s, t, by simp [h]⟩
    · rintro ⟨s, t, h⟩
      cases s with
      | nil => exact Or.inl ⟨t, by simpa using h⟩
      | cons b s =>
        right
        refine ⟨s, t, ?_⟩
        have := h
        simp only [List.cons_append] at this
        exact (List.cons.injEq _ _ _ _ ▸ this).2

theorem occurs_trans {α : Type} [DecidableEq α] {n m l : List α}
    (h1 : occurs n m = true) (h2 : occurs m l = true) : occurs n l = true := by
  rw [occurs_iff] at h1 h2 ⊢
  obtain ⟨s1, t1, rfl⟩ := h1
  obtain ⟨s2, t2, rfl⟩ := h2
  exact ⟨s2 ++ s1, t1 ++ t2, by simp⟩

/-! ## Claim C5 — signals accepted by `is_pdf_response` -/

/-- C5 (amended): any one of the four signals of the `is_pdf` check in
`core.py` suffices for `is_pdf_response` to return true — the
content-type containing `application/pdf` (not merely `pdf`), the URL
ending in `.pdf` case-insensitively, the payload starting with the
`%PDF` magic bytes (hence true regardless of the declared content-type
and of the URL), or the token `PDF` occurring in the first 100 bytes. -/
theorem is_pdf_response_of_any_signal (ctype url : String) (content : List Nat)
    (h : strContains (lower ctype) "application/pdf" = true ∨
         str_ends (lower url) ".pdf" = true ∨
         leads pdfMagic content = true ∨
         occurs pdfTok (content.take 100) = true) :
    is_pdf_response ctype url content = true := by
  unfold is_pdf_response
  rcases h with h | h | h | h <;> simp [h]

/-- Witness for C5: a payload starting with the `%PDF` magic bytes is
classified as a PDF even under content-type `text/html` and a non-`.pdf`
URL. -/
theorem is_pdf_response_of_any_signal_witness :
    (strContains (lower "text/html") "application/pdf" = true ∨
     str_ends (lower "http://e.com/doc") ".pdf" = true ∨
     leads pdfMagic [37, 80, 68, 70, 1] = true ∨
     occurs pdfTok ([37, 80, 68, 70, 1].take 100) = true) ∧
    is_pdf_response "text/html" "http://e.com/doc" [37, 80, 68, 70, 1] = true :=
  ⟨Or.inr (Or.inr (Or.inl (by decide))),
   is_pdf_response_of_any_signal _ _ _ (Or.inr (Or.inr (Or.inl (by decide))))⟩

/-- Counterexample for C5 as stated: a content-type that contains `pdf`
(here, the content-type `pdf` itself) does not suffice — `core.py`
requires `application/pdf` — so with no other signal the classifier
returns false even though the claimed signal holds. -/
theorem is_pdf_response_ctype_pdf_insufficient :
    strContains (lower "pdf") "pdf" = true ∧
    str_ends (lower "http://e.com/doc") ".pdf" = false ∧
    leads pdfMagic ([] : List Nat) = false ∧
    occurs pdfTok (([] : List Nat).take 100) = false ∧
    is_pdf_response "pdf" "http://e.com/doc" [] = false := by
  decide

/-! ## Claim C6 — when `is_pdf_response` returns false -/

/-- C6 (amended): when the URL lacks a `.pdf` suffix, the payload does
not start with the `%PDF` magic bytes, the content-type does not contain
`pdf`, and additionally the token `PDF` does not occur in the first 100
bytes of the payload, `is_pdf_response` returns false. -/
theorem is_pdf_response_false_of_no_signal (ctype url : String) (content : List Nat)
    (h1 : str_ends (lower url) ".pdf" = false)
    (h2 : leads pdfMagic content = false)
    (h3 : strContains (lower ctype) "pdf" = false)
    (h4 : occurs pdfTok (content.take 100) = false) :
    is_pdf_response ctype url content = false := by
  have h5 : strContains (lower ctype) "application/pdf" = false := by
    cases hc : strContains (lower ctype) "application/pdf"
    · rfl
    · have hmono : occurs ("pdf").data ("application/pdf").data = true := by decide
      have : strContains (lower ctype) "pdf" = true := occurs_trans hmono hc
      rw [h3] at this
      cases this
  unfold is_pdf_response
  simp [h1, h2, h4, h5]

/-- Witness for C6: an HTML page with none of the four signals is
rejected by the classifier. -/
theorem is_pdf_response_false_of_no_signal_witness :
    str_ends (lower "http://e.com/page") ".pdf" = false ∧
    leads pdfMagic [60, 104, 116, 109, 108] = false ∧
    strContains (lower "text/html") "pdf" = false ∧
    occurs pdfTok ([60, 104, 116, 109, 108].take 100) = false ∧
    is_pdf_response "text/html" "http://e.com/page" [60, 104, 116, 109, 108] = false :=
  ⟨by decide, by decide, by decide, by decide,
   is_pdf_response_false_of_no_signal _ _ _ (by decide) (by decide) (by decide) (by decide)⟩

/-- Counterexample for C6 as stated: a payload whose first 100 bytes
contain the token `PDF` without starting with `%PDF` is classified as a
PDF even though the claim's three conditions all hold, so the claim's
conclusion (false) fails. -/
theorem is_pdf_response_token_counterexample :
    str_ends (lower "http://e.com/x") ".pdf" = false ∧
    leads pdfMagic [120, 80, 68, 70] = false ∧
    strContains (lower "text/html") "pdf" = false ∧
    is_pdf_response "text/html" "http://e.com/x" [120, 80, 68, 70] = true := by
  decide

/-! ## Claim C8 — content-addressed storage naming -/

/-- C8: `save_pdf` is a deterministic function of the URL's path and the
content: the produced path is the output directory, then the first 12
characters of the content's SHA-256 hex digest, then `__`, then the
sanitized basename of the URL's path (default `document.pdf`); two URLs
with the same path and the same content yield the identical path, and
the checksum component depends only on the content. -/
theorem save_pdf_content_addressed (sha : List Nat → String) (u u2 : Url)
    (content : List Nat) (hp : u2.path = u.path) :
    save_pdf sha u content =
      OUT_DIR ++ "/" ++ ((sha content).take 12 ++ "__" ++
        sanitize_filename (if path_name u.path = "" then "document.pdf" else path_name u.path)) ∧
    save_pdf sha u2 content = save_pdf sha u content := by
  constructor
  · rfl
  · unfold save_pdf
    rw [hp]

/-- Witness for C8 at a concrete hash function, URL and content. -/
theorem save_pdf_content_addressed_witness :
    (Url.mk "https://b.eu/docs/a b.pdf" "https" "b.eu" "/docs/a b.pdf").path =
      (Url.mk "http://a.gov/docs/a b.pdf" "http" "a.gov" "/docs/a b.pdf").path ∧
    save_pdf (fun c => toString c.length ++ "aaaaaaaaaaaaaaa")
        (Url.mk "http://a.gov/docs/a b.pdf" "http" "a.gov" "/docs/a b.pdf") [7, 7] =
      OUT_DIR ++ "/" ++ (((fun (c : List Nat) => toString c.length ++ "aaaaaaaaaaaaaaa") [7, 7]).take 12 ++ "__" ++
        sanitize_filename (if path_name "/docs/a b.pdf" = "" then "document.pdf" else path_name "/docs/a b.pdf")) ∧
    save_pdf (fun c => toString c.length ++ "aaaaaaaaaaaaaaa")
        (Url.mk "https://b.eu/docs/a b.pdf" "https" "b.eu" "/docs/a b.pdf") [7, 7] =
      save_pdf (fun c => toString c.length ++ "aaaaaaaaaaaaaaa")
        (Url.mk "http://a.gov/docs/a b.pdf" "http" "a.gov" "/docs/a b.pdf") [7, 7] :=
  ⟨rfl,
   (save_pdf_content_addressed _ _ _ _ rfl).1,
   (save_pdf_content_addressed _ _ _ _ rfl).2⟩

/-! ## Claim C9 — Bing discovery degrades gracefully -/

/-- C9: with a blank (or unset, hence empty) `BING_API_KEY` the Bing
discovery returns the empty list for every query outcome, and every URL
it ever returns ends in `.pdf` case-insensitively. -/
theorem discover_via_bing_graceful (key : String) (api : Except String (List String))
    (u : String) :
    (strip key = "" → discover_via_bing key api = []) ∧
    (u ∈ discover_via_bing key api → str_ends (lower u) ".pdf" = true) := by
  constructor
  · intro hk
    unfold discover_via_bing
    rw [if_pos hk]
  · intro hmem
    unfold discover_via_bing at hmem
    split at hmem
    · cases hmem
    · split at hmem
      · cases hmem
      · exact (List.mem_filter.mp hmem).2

/-- Witness for C9: a whitespace-only key yields the empty list, and a
returned upper-case `.PDF` URL passes the case-insensitive check. -/
theorem discover_via_bing_graceful_witness :
    discover_via_bing "  " (Except.ok ["http://a.gov/x.pdf"]) = [] ∧
    str_ends (lower "http://a.gov/B.PDF") ".pdf" = true :=
  ⟨(discover_via_bing_graceful "  " (Except.ok ["http://a.gov/x.pdf"]) "").1 (by decide),
   (discover_via_bing_graceful "key" (Except.ok ["http://a.gov/B.PDF"]) "http://a.gov/B.PDF").2
     (by decide)⟩

/-! ## Claim C10 — domain allowlist filtering is raw suffix matching -/

/-- C10: with a non-empty allowlist, a candidate URL is kept exactly
when its lowercased netloc string-ends with an allowlist entry or equals
an entry with leading dots stripped; the suffix test has no label
boundary, so the unrelated host `evilexample.gov` passes the filter for
the allowlisted domain `example.gov`. -/
theorem filter_allowed_suffix_matching (allowed : List String) (urls : List Url)
    (u : Url) (hne : allowed ≠ []) :
    (u ∈ filter_allowed allowed urls ↔
      u ∈ urls ∧ domain_allowed allowed (domain_of u) = true) ∧
    domain_allowed ["example.gov"] "evilexample.gov" = true := by
  refine ⟨?_, by decide⟩
  unfold filter_allowed
  rw [if_neg (by simpa using hne)]
  exact List.mem_filter

/-- Witness for C10: a URL on host `evilexample.gov` survives the
filter for the allowlist `["example.gov"]`. -/
theorem filter_allowed_suffix_matching_witness :
    ((Url.mk "http://evilexample.gov/a.pdf" "http" "evilexample.gov" "/a.pdf") ∈
        filter_allowed ["example.gov"]
          [Url.mk "http://evilexample.gov/a.pdf" "http" "evilexample.gov" "/a.pdf"] ↔
      (Url.mk "http://evilexample.gov/a.pdf" "http" "evilexample.gov" "/a.pdf") ∈
          [Url.mk "http://evilexample.gov/a.pdf" "http" "evilexample.gov" "/a.pdf"] ∧
        domain_allowed ["example.gov"]
          (domain_of (Url.mk "http://evilexample.gov/a.pdf" "http" "evilexample.gov" "/a.pdf")) = true) ∧
    domain_allowed ["example.gov"] "evilexample.gov" = true :=
  filter_allowed_suffix_matching ["example.gov"]
    [Url.mk "http://evilexample.gov/a.pdf" "http" "evilexample.gov" "/a.pdf"]
    (Url.mk "http://evilexample.gov/a.pdf" "http" "evilexample.gov" "/a.pdf")
    (by decide)

/-! ## Claim C2 — license heuristic decision order -/

/-- C2: the license classifier follows the fixed first-match order of
`is_public_enough`: a restriction directive in the `X-Robots-Tag` header
rejects, even when the extracted text preview is permissive (the header
check precedes the text check); otherwise the decision is accept exactly
when the preview matches the permissive pattern, or the domain ends in a
likely-public TLD and the preview does not match the restrictive
pattern; every remaining case rejects. -/
theorem is_public_enough_decision_order (extract : List Nat → Except String String)
    (pm rm : String → Bool) (u : Url) (resp : Response) (bytes : List Nat)
    (netloc preview : String) (hx : extract bytes = Except.ok preview) :
    Except.map Prod.fst (is_public_enough extract pm rm u resp bytes netloc) =
      Except.ok (!headers_forbid_use resp &&
        (pm preview || (tld_is_likely_public netloc && !rm preview))) := by
  unfold is_public_enough
  rw [hx]
  cases hf : headers_forbid_use resp <;> cases hpm : pm preview <;>
    cases ht : tld_is_likely_public netloc <;> cases hrm : rm preview <;>
    simp [hf, hpm, ht, hrm, Except.map]

/-- Witness for C2: a `noai` header combined with a permissive
(public-domain) text preview is rejected — the header check wins. -/
theorem is_public_enough_decision_order_witness :
    extract_pd [1] = Except.ok "This work is in the public domain." ∧
    pm_pd "This work is in the public domain." = true ∧
    headers_forbid_use resp_noai = true ∧
    Except.map Prod.fst (is_public_enough extract_pd pm_pd rm_arr u_com resp_noai [1] "x.com") =
      Except.ok (!headers_forbid_use resp_noai &&
        (pm_pd "This work is in the public domain." ||
          (tld_is_likely_public "x.com" && !rm_arr "This work is in the public domain."))) :=
  ⟨rfl, by decide, by decide,
   is_public_enough_decision_order extract_pd pm_pd rm_arr u_com resp_noai [1] "x.com"
     "This work is in the public domain." rfl⟩

/-- Counterexample for C1 as stated: a failed `robots.txt` fetch is not
cached as a deny-all decision — `can_fetch` returns false for the
failing call, but a second call to the same origin retries the fetch
and, when it succeeds with permissive rules, returns true within the
same run. -/
theorem robots_failure_not_cached :
    (rc_can_fetch net_flip rc_init u_gov).1 = false ∧
    (rc_can_fetch net_flip (rc_can_fetch net_flip rc_init u_gov).2 u_gov).1 = true :=
  ⟨rfl, rfl⟩

/-- C1 (amended): a failed `robots.txt` fetch yields `can_fetch = false`
for that call, and the failure is never treated as allow: as long as
every fetch attempt for an uncached origin fails, every `can_fetch`
answer for URLs under that origin, anywhere in a run, is false.  (The
code does not cache the failure, so the fail-closed answer persists only
while the origin's `robots.txt` remains unfetchable.) -/
theorem rc_fail_closed (net : Nat → String → Except Unit RobotRules) (o : String)
    (st : RCState) (us : List Url) (u : Url) (b : Bool)
    (hnet : ∀ n, net n o = Except.error ())
    (hcache : st.cache.find? (fun p => p.1 == o) = none)
    (hmem : (u, b) ∈ us.zip (rc_run net st us).1)
    (ho : origin_of u = o) :
    b = false := by
  induction us generalizing st with
  | nil => cases hmem
  | cons v vs ih =>
    rw [rc_run] at hmem
    simp only [List.zip_cons_cons, List.mem_cons, Prod.mk.injEq] at hmem
    rcases hmem with ⟨rfl, rfl⟩ | hmem
    · unfold rc_can_fetch
      rw [ho, hcache, hnet st.fetches]
    · have hcache' : ((rc_can_fetch net st v).2).cache.find? (fun p => p.1 == o) = none := by
        unfold rc_can_fetch
        cases hfind : st.cache.find? (fun p => p.1 == origin_of v) with
        | some p => exact hcache
        | none =>
          cases hnetv : net st.fetches (origin_of v) with
          | error e => exact hcache
          | ok rp =>
            by_cases hv : origin_of v = o
            · rw [hv, hnet st.fetches] at hnetv
              cases hnetv
            · show List.find? (fun p => p.1 == o) ((origin_of v, rp) :: st.cache) = none
              rw [List.find?_cons_of_neg _ (by simpa using hv)]
              exact hcache
      exact ih _ hcache' hmem

/-- Witness for C1 (amended): with an always-failing network, both calls
for two URLs under the failing origin answer false. -/
theorem rc_fail_closed_witness :
    (rc_run net_down rc_init [u_gov, u_gov2]).1.getD 1 true = false :=
  rc_fail_closed net_down "http://x.gov" rc_init [u_gov, u_gov2] u_gov2
    ((rc_run net_down rc_init [u_gov, u_gov2]).1.getD 1 true)
    (fun _ => rfl) rfl (by decide) rfl

theorem global_wait_now_ge (si : ℚ) (st : TState) :
    st.lastGlobal + si ≤ (global_wait si st).now := by
  unfold global_wait
  dsimp only
  split <;> linarith

theorem domain_wait_now_ge (dly : ℚ) (st : TState) (d : String) :
    lookup0 d st.lastHit + dly ≤ (domain_wait dly st d).now := by
  unfold domain_wait
  dsimp only
  split <;> linarith

theorem lookup0_cons_self (d : String) (t : ℚ) (m : List (String × ℚ)) :
    lookup0 d ((d, t) :: m) = t := by
  simp [lookup0, List.find?]

theorem lookup0_cons_ne (d d' : String) (t : ℚ) (m : List (String × ℚ))
    (h : d' ≠ d) : lookup0 d ((d', t) :: m) = lookup0 d m := by
  have hb : ((d' : String) == d) = false := by simpa using h
  simp [lookup0, List.find?, hb]

theorem run_fetches_global_gap (si dly : ℚ) (evs : List (ℚ × String)) (st : TState) :
    spaced si st.lastGlobal ((run_fetches si dly st evs).1.map (fun e => e.2.2)) := by
  induction evs generalizing st with
  | nil => exact trivial
  | cons ev evs ih =>
    obtain ⟨idle, d⟩ := ev
    rw [run_fetches]
    dsimp only [List.map_cons]
    constructor
    · have h := global_wait_now_ge si (domain_wait dly { st with now := st.now + idle } d)
      exact h
    · have h := ih (global_wait si (domain_wait dly { st with now := st.now + idle } d))
      exact h

theorem run_fetches_domain_gap (si dly : ℚ) (d : String) (evs : List (ℚ × String))
    (st : TState) :
    spaced dly (lookup0 d st.lastHit)
      (((run_fetches si dly st evs).1.filter (fun e => e.1 == d)).map (fun e => e.2.1)) := by
  induction evs generalizing st with
  | nil => exact trivial
  | cons ev evs ih =>
    obtain ⟨idle, d'⟩ := ev
    rw [run_fetches]
    dsimp only [List.filter_cons]
    by_cases hd : d' = d
    · subst hd
      rw [List.filter_cons_of_pos (by simp)]
      dsimp only [List.map_cons]
      constructor
      · exact domain_wait_now_ge dly { st with now := st.now + idle } d'
      · have h := ih (global_wait si (domain_wait dly { st with now := st.now + idle } d'))
        rwa [show (global_wait si (domain_wait dly { st with now := st.now + idle } d')).lastHit
              = (d', (domain_wait dly { st with now := st.now + idle } d').now)
                  :: st.lastHit from rfl,
            lookup0_cons_self] at h
    · rw [List.filter_cons_of_neg (by simp [hd])]
      have h := ih (global_wait si (domain_wait dly { st with now := st.now + idle } d'))
      rwa [show (global_wait si (domain_wait dly { st with now := st.now + idle } d')).lastHit
            = (d', (domain_wait dly { st with now := st.now + idle } d').now)
                :: st.lastHit from rfl,
          lookup0_cons_ne _ _ _ _ hd] at h

/-- C4 (amended): under the idealised timing semantics, any two
consecutive fetches issued through the fetch client — to any domains —
are at least the configured global interval apart, and any two
consecutive per-domain limiter acquisitions for the same domain (the
recorded last-hit instants) are at least the configured per-domain delay
apart; every acquisition is a total function that suspends the caller
for the remaining delta and then records the current time.  (Because the
global wait runs after the per-domain slot is recorded, the actual fetch
instants for one domain can be closer together than the per-domain
delay; see the counterexample.) -/
theorem rate_limiter_spacing (st : TState) (evs : List (ℚ × String)) (d : String) :
    spaced SECONDS_PER_REQUEST st.lastGlobal
      ((run_fetches SECONDS_PER_REQUEST PER_DOMAIN_DELAY st evs).1.map (fun e => e.2.2)) ∧
    spaced PER_DOMAIN_DELAY (lookup0 d st.lastHit)
      (((run_fetches SECONDS_PER_REQUEST PER_DOMAIN_DELAY st evs).1.filter
          (fun e => e.1 == d)).map (fun e => e.2.1)) :=
  ⟨run_fetches_global_gap _ _ _ _, run_fetches_domain_gap _ _ _ _ _⟩

theorem SECONDS_PER_REQUEST_eq : SECONDS_PER_REQUEST = 6 := by
  norm_num [SECONDS_PER_REQUEST, REQUESTS_PER_MIN]

/-- Counterexample for C4 as stated: starting idle at time 1000, fetch
`d1`, then `d2`, then `d2` again back-to-back.  The fetches to `d2` are
issued at 1006 and 1012 — only 6 seconds apart, less than the 10-second
per-domain delay — because the global limiter's sleep runs after the
per-domain slot has been recorded. -/
theorem per_domain_fetch_gap_counterexample :
    ((run_fetches SECONDS_PER_REQUEST PER_DOMAIN_DELAY ce_start ce_events).1.map
        (fun e => (e.1, e.2.2))) = [("d1", 1000), ("d2", 1006), ("d2", 1012)] ∧
    (1012 : ℚ) - 1006 < PER_DOMAIN_DELAY := by
  constructor
  · rw [SECONDS_PER_REQUEST_eq]
    norm_num [ce_events, ce_start, run_fetches, domain_wait, global_wait, lookup0,
      List.find?, PER_DOMAIN_DELAY,
      (by decide : (("d1" : String) == "d2") = false),
      (by decide : (("d2" : String) == "d2") = true),
      (by decide : (("d1" : String) == "d1") = true)]
  · norm_num [PER_DOMAIN_DELAY]

/-! ## Claim C3 — exactly one manifest row per URL -/

theorem mem_zip_map {α β : Type} (f : α → β) (l : List α) (a : α) (b : β)
    (h : (a, b) ∈ l.zip (l.map f)) : b = f a := by
  induction l with
  | nil => cases h
  | cons x xs ih =>
    simp only [List.map_cons, List.zip_cons_cons, List.mem_cons, Prod.mk.injEq] at h
    rcases h with ⟨rfl, rfl⟩ | h
    · rfl
    · exact ih h

theorem process_url_status (sha : List Nat → String) (pm rm : String → Bool)
    (env : UrlEnv) (u : Url) (r : Row) (w : List String)
    (h : process_url sha pm rm env u = Except.ok (r, w)) :
    r.status = "saved" ∨ r.status = "rejected" ∨ r.status = "skipped" := by
  unfold process_url at h
  repeat' first
    | split at h
    | simp_all [mk_skip, mk_rejected, mk_saved]
  all_goals try obtain ⟨rfl, rfl⟩ := h
  all_goals simp

/-- C3: the per-URL loop of `main` appends exactly one manifest row per
processed URL, whose status is one of saved, rejected, skipped or error;
an exception escaping the per-URL body is caught at the per-URL
boundary, recorded as an `error` row carrying the exception's
description with no file written, and the loop continues with the
remaining URLs (one row per URL regardless). -/
theorem run_urls_one_row_per_url (sha : List Nat → String) (pm rm : String → Bool)
    (env : Url → UrlEnv) (urls : List Url) (u : Url) (pr : Row × List String)
    (hmem : (u, pr) ∈ urls.zip (run_urls sha pm rm env urls)) :
    (run_urls sha pm rm env urls).length = urls.length ∧
    (pr.1.status = "saved" ∨ pr.1.status = "rejected" ∨ pr.1.status = "skipped" ∨
      pr.1.status = "error") ∧
    ((process_url sha pm rm (env u) u).isOk = false →
      pr = (error_row u (exc_msg (process_url sha pm rm (env u) u)), [])) := by
  have hpr : pr = (match process_url sha pm rm (env u) u with
      | Except.ok rw0 => rw0
      | Except.error e => (error_row u e, [])) :=
    mem_zip_map _ urls u pr hmem
  refine ⟨List.length_map _ _, ?_, ?_⟩
  · cases hp : process_url sha pm rm (env u) u with
    | ok rw0 =>
      obtain ⟨r, w⟩ := rw0
      rw [hp] at hpr
      subst hpr
      rcases process_url_status sha pm rm (env u) u r w hp with h | h | h
      · exact Or.inl h
      · exact Or.inr (Or.inl h)
      · exact Or.inr (Or.inr (Or.inl h))
    | error e =>
      rw [hp] at hpr
      subst hpr
      exact Or.inr (Or.inr (Or.inr rfl))
  · intro hko
    cases hp : process_url sha pm rm (env u) u with
    | ok rw0 =>
      rw [hp] at hko
      cases hko
    | error e =>
      rw [hp] at hpr
      subst hpr
      rfl

/-- Witness for C3: a URL whose processing raises `boom` inside the
license check yields exactly one `error` row and an intact batch. -/
theorem run_urls_one_row_per_url_witness :
    ((u_com, ((error_row u_com "boom"), ([] : List String))) ∈
        [u_com].zip (run_urls sha_len pm_pd rm_arr env_boom [u_com])) ∧
    ((run_urls sha_len pm_pd rm_arr env_boom [u_com]).length = [u_com].length ∧
     (((error_row u_com "boom"), ([] : List String)).1.status = "saved" ∨
      ((error_row u_com "boom"), ([] : List String)).1.status = "rejected" ∨
      ((error_row u_com "boom"), ([] : List String)).1.status = "skipped" ∨
      ((error_row u_com "boom"), ([] : List String)).1.status = "error") ∧
     ((process_url sha_len pm_pd rm_arr (env_boom u_com) u_com).isOk = false →
       ((error_row u_com "boom"), ([] : List String)) =
         (error_row u_com (exc_msg (process_url sha_len pm_pd rm_arr (env_boom u_com) u_com)),
          []))) :=
  ⟨by decide,
   run_urls_one_row_per_url sha_len pm_pd rm_arr env_boom [u_com] u_com
     ((error_row u_com "boom"), []) (by decide)⟩

/-! ## Claim C7 — the 40MB streaming cap -/

theorem stream_exceeds (cs : List (List Nat)) (acc : List Nat)
    (hacc : acc.length ≤ MAX_STREAM_BYTES)
    (hbig : MAX_STREAM_BYTES < acc.length + cs.flatten.length) :
    stream_content acc cs = Except.error "file_too_large" := by
  induction cs generalizing acc with
  | nil =>
    simp only [List.flatten_nil, List.length_nil, Nat.add_zero] at hbig
    omega
  | cons c cs ih =>
    rw [stream_content]
    by_cases hc : c.isEmpty
    · rw [if_pos hc]
      have hc0 : c.length = 0 := by
        rw [List.isEmpty_iff] at hc
        simp [hc]
      apply ih acc hacc
      simp only [List.flatten_cons, List.length_append] at hbig
      omega
    · rw [if_neg hc]
      by_cases hlen : MAX_STREAM_BYTES < (acc ++ c).length
      · rw [if_pos hlen]
      · rw [if_neg hlen]
        apply ih
        · exact Nat.le_of_not_lt hlen
        · simp only [List.flatten_cons, List.length_append] at hbig ⊢
          omega

/-- C7: a streamed download whose accumulated content exceeds the 40MB
cap is aborted: the pipeline records exactly one manifest row for the
URL — status `skipped` with reason `stream_error:file_too_large` — and
writes no file for it. -/
theorem oversize_stream_skipped (sha : List Nat → String) (pm rm : String → Bool)
    (env : UrlEnv) (u : Url) (h g : Response) (cs : List (List Nat))
    (hh : env.head = some h)
    (hhs : 200 ≤ h.status_code ∧ h.status_code < 400)
    (hct : strContains (lower (get_header h.headers "Content-Type")) "pdf" = true ∨
           str_ends (lower u.raw) ".pdf" = true)
    (hforb : headers_forbid_use h = false)
    (hg : env.get = some g)
    (hgs : 200 ≤ g.status_code ∧ g.status_code < 300)
    (hct2 : strContains (lower (get_header g.headers "Content-Type")) "application/pdf" = true ∨
            str_ends (lower u.raw) ".pdf" = true)
    (hc : env.chunks = Except.ok cs)
    (hbig : MAX_STREAM_BYTES < cs.flatten.length) :
    process_url sha pm rm env u =
      Except.ok (mk_skip u "stream_error:file_too_large" (toString g.status_code)
        (get_header g.headers "Content-Type"), []) := by
  have hstream : stream_content [] cs = Except.error "file_too_large" :=
    stream_exceeds cs [] (by simp) (by simpa using hbig)
  rcases hct with hct | hct <;> rcases hct2 with hct2 | hct2 <;>
    simp [process_url, hh, hg, hc, read_stream, hstream, hforb, hct, hct2,
      hhs.1, hhs.2, hgs.1, hgs.2]

/-- Witness for C7: a single streamed chunk one byte over the cap is
recorded as `skipped` with reason `stream_error:file_too_large` and no
write. -/
theorem oversize_stream_skipped_witness :
    MAX_STREAM_BYTES < big_chunks.flatten.length ∧
    process_url sha_len pm_pd rm_arr env_big u_com =
      Except.ok (mk_skip u_com "stream_error:file_too_large" (toString resp_pdf.status_code)
        (get_header resp_pdf.headers "Content-Type"), []) :=
  ⟨by simp [big_chunks],
   oversize_stream_skipped sha_len pm_pd rm_arr env_big u_com resp_pdf resp_pdf big_chunks
     rfl (by decide) (Or.inl (by decide)) (by decide) rfl (by decide) (Or.inl (by decide)) rfl
     (by simp [big_chunks])⟩

end Scraper
